import Mathlib

/-!
# Verification of the metagenomics pipeline orchestration core

A shallow embedding, in Lean 4, of the pure logic of the repository
`sathishthangasamy/metagenomics`:

* `src/config.py` — the step catalog and the hourly-rate table;
* `src/gcp/storage.py` — `validate_paired_files`;
* `src/gcp/monitor.py` — `JobMonitor` (status polling, log parsing,
  progress computation, cost estimation, result collection, cancellation);
* `src/gcp/launcher.py` — `delete_vm` and the startup-script builder.

External gateways (Compute Engine and Cloud Storage) are modelled as a
record of functions returning `Except String _`: an `Except.error e`
models a call that raises a Python exception with message `e`; an
`Except.ok v` models a call that returns `v` normally.  Machine floats of
the source are modelled as exact rationals (`ℚ`); times are modelled as
rational epoch seconds.  Python dictionaries are modelled as
insertion-ordered association lists, with `dictInsert` giving the
`d[k] = v` update semantics (update in place, append when new).
-/

/-! ## Python-style string primitives

The source manipulates strings with `in` (substring test), `replace`,
`endswith`, `rsplit(sep, 1)[0]`, `split(pat)[0]`, `lower` and
`split('/')[-1]`.  We embed these on `List Char` (a Lean `String` is a
structure wrapping a `List Char`), each faithful to the Python
operation, and fully executable.  -/

/-- Python `pat in s`: `pat` occurs as a contiguous substring of `s`. -/
def containsSub (pat : List Char) : List Char → Bool
  | [] => pat.isEmpty
  | c :: rest => pat.isPrefixOf (c :: rest) || containsSub pat rest

/-- Fuel-indexed worker for `pyReplace`; the fuel bounds the number of
scanning steps, and `s.length` steps always suffice since every step
consumes at least one character of `s`. -/
def replaceFuel (pat rep : List Char) : Nat → List Char → List Char
  | 0, s => s
  | _ + 1, [] => []
  | n + 1, c :: rest =>
    if !pat.isEmpty && pat.isPrefixOf (c :: rest) then
      rep ++ replaceFuel pat rep n ((c :: rest).drop pat.length)
    else
      c :: replaceFuel pat rep n rest

/-- Python `s.replace(pat, rep)` for non-empty `pat`: replace every
non-overlapping occurrence, scanning left to right.  (All call sites in
the source use non-empty literal patterns.) -/
def pyReplace (pat rep s : List Char) : List Char :=
  replaceFuel pat rep s.length s

/-- Python `s.rsplit(sep, 1)[0]`: everything before the last occurrence
of the separator character; the whole string when the separator is
absent. -/
def takeBeforeLast (sep : Char) (s : List Char) : List Char :=
  if sep ∈ s then (((s.reverse.dropWhile (· != sep)).drop 1)).reverse else s

/-- Python `s.split(pat)[0]` for non-empty `pat`: everything before the
first occurrence of the substring `pat`; the whole string when `pat` is
absent. -/
def takeBeforeFirst (pat : List Char) : List Char → List Char
  | [] => []
  | c :: rest =>
    if pat.isPrefixOf (c :: rest) then [] else c :: takeBeforeFirst pat rest

/-- Python `s.lower()` (ASCII case folding, as used on filenames). -/
def pyLower (s : List Char) : List Char := s.map Char.toLower

/-- Python `blob_name.split('/')[-1]`: the final path component. -/
def lastPathComponent (s : List Char) : List Char :=
  (s.reverse.takeWhile (· != '/')).reverse

/-- Python `x or default` for an optional string: `None` and the empty
string are falsy and yield the default. -/
def pyOrStr (x : Option String) (default : String) : String :=
  match x with
  | none => default
  | some s => if s = "" then default else s

/-- Code-point lexicographic `≤` on character lists: the order Python
uses to compare strings. -/
def charListLe : List Char → List Char → Bool
  | [], _ => true
  | _ :: _, [] => false
  | a :: as, b :: bs => if a = b then charListLe as bs else decide (a < b)

/-- Python `a <= b` on strings (code-point lexicographic). -/
def pyStrLe (a b : String) : Bool := charListLe a.toList b.toList

/-! ## `src/config.py` — the step catalog and rate table -/

/-- One entry of `PIPELINE_STEPS` in `src/config.py`. -/
structure StepMeta where
  name : String
  enabled : Bool
  emoji : String
deriving DecidableEq, Repr

/-- `PIPELINE_STEPS` from `src/config.py`: the fixed, insertion-ordered
seven-entry step catalog. -/
def PIPELINE_STEPS : List (String × StepMeta) :=
  [ ("fastqc", ⟨"FastQC", true, "🔍"⟩),
    ("trimmomatic", ⟨"Trimmomatic", true, "✂️"⟩),
    ("megahit", ⟨"MEGAHIT Assembly", true, "🧬"⟩),
    ("prodigal", ⟨"Prodigal", true, "🔬"⟩),
    ("hmmscan", ⟨"HMMscan (Pfam)", true, "🎯"⟩),
    ("binning", ⟨"MetaBAT2 Binning", true, "📦"⟩),
    ("checkm", ⟨"CheckM Quality", true, "✓"⟩) ]

/-- `COST_PER_HOUR` from `src/config.py` (USD per hour, exact decimal
values standing for the source's float literals). -/
def COST_PER_HOUR : List (String × ℚ) :=
  [ ("n1-standard-16", 0.38),
    ("n1-highmem-16", 0.47) ]

/-! ## `src/gcp/storage.py` — `validate_paired_files` -/

/-- The extension-stripping chain of `validate_paired_files`
(`storage.py` lines 353–354): successive `replace(..., '')` of
`.fq.gz`, `.fastq.gz`, `.fq`, `.fastq`, applied in that order. -/
def stripReadExts (s : List Char) : List Char :=
  pyReplace ".fastq".toList []
    (pyReplace ".fq".toList []
      (pyReplace ".fastq.gz".toList []
        (pyReplace ".fq.gz".toList [] s)))

/-- `validate_paired_files` from `src/gcp/storage.py`: validate that the
selected files form a paired-end read set and assign forward/reverse.
Returns `(is_valid, forward_file, reverse_file, error_message)`.
Python's `sorted` on strings is the stable ascending sort under
code-point lexicographic order, embedded as `List.insertionSort` over
`pyStrLe` (code-point lexicographic `≤`). -/
def validate_paired_files (file_list : List String) :
    Bool × Option String × Option String × String :=
  if file_list.length = 0 then
    (false, none, none, "No files selected")
  else if file_list.length = 1 then
    (false, none, none, "Please select both forward and reverse read files (R1 and R2)")
  else if file_list.length > 2 then
    (false, none, none, "Please select exactly 2 files (forward and reverse reads)")
  else
    let sorted_files := List.insertionSort (fun a b => pyStrLe a b = true) file_list
    let file1 := sorted_files.headD ""
    let file2 := (sorted_files.drop 1).headD ""
    let base1 := stripReadExts file1.toList
    let base2 := stripReadExts file2.toList
    let patterns_valid :=
      if ("_R1".toList.isSuffixOf base1 || "_1".toList.isSuffixOf base1)
          && ("_R2".toList.isSuffixOf base2 || "_2".toList.isSuffixOf base2) then
        takeBeforeLast '_' base1 == takeBeforeLast '_' base2
      else if containsSub "_1.".toList file1.toList
          && containsSub "_2.".toList file2.toList then
        takeBeforeFirst "_1.".toList file1.toList == takeBeforeFirst "_2.".toList file2.toList
      else if containsSub ".1.".toList file1.toList
          && containsSub ".2.".toList file2.toList then
        takeBeforeFirst ".1.".toList file1.toList == takeBeforeFirst ".2.".toList file2.toList
      else
        false
    if patterns_valid = false then
      (false, none, none,
        "Selected files do not appear to be paired reads. Expected naming: *_R1/*_R2 or *_1/*_2")
    else if containsSub "_R1".toList file1.toList || containsSub "_1".toList file1.toList
        || containsSub ".1.".toList file1.toList then
      (true, some file1, some file2, "")
    else
      (true, some file2, some file1, "")

/-! ## `src/gcp/monitor.py` — `JobMonitor`

The two external gateways seen by `JobMonitor` — the `VMLauncher`
(Compute Engine) and the `StorageHandler` (Cloud Storage) — are modelled
as one record of functions.  A field returning `Except.error e` models
the call raising a Python exception with message `e`. -/

/-- The gateway interface used by `JobMonitor` (and, for `delete_vm`,
by `VMLauncher`).  `delete_instance` stands for the compound
`client.delete` + `_wait_for_operation` of `VMLauncher.delete_vm`: any
failure of that compound (API error, operation error, timeout) is an
`Except.error`. -/
structure Gateways where
  get_instance_status : String → Except String (Option String)
  list_blobs : String → Except String (List String)
  download_file : String → String → Except String Bool
  read_local : String → Except String String
  generate_signed_url : String → Option String
  delete_instance : String → Except String Unit

/-- One per-step entry of the dictionary built by
`JobMonitor._parse_pipeline_log`. -/
structure StepInfo where
  status : String
  progress : Nat
deriving DecidableEq, Repr

/-- The record built by `JobMonitor.get_job_status` (`monitor.py` lines
30–40).  `elapsed_time` and `estimated_cost` are initialized and never
updated by the source. -/
structure JobStatus where
  job_id : String
  status : String
  progress : Int
  current_step : Option String
  steps : List (String × StepInfo)
  elapsed_time : Int
  estimated_cost : ℚ
  vm_status : String
  error : Option String
deriving DecidableEq, Repr

/-- `step_patterns` from `JobMonitor._parse_pipeline_log` (`monitor.py`
lines 103–111): the "step started" marker searched for each step.  The
patterns contain no regex metacharacters, so Python's `re.search` on
them is plain substring search. -/
def step_patterns : List (String × String) :=
  [ ("fastqc", "Running FastQC"),
    ("trimmomatic", "Running Trimmomatic"),
    ("megahit", "Running MEGAHIT"),
    ("prodigal", "Running Prodigal"),
    ("hmmscan", "Running HMMscan"),
    ("binning", "Running MetaBAT2"),
    ("checkm", "Running CheckM") ]

/-- `completion_patterns` from `JobMonitor._parse_pipeline_log`
(`monitor.py` lines 113–121): the "step completed" marker searched for
each step. -/
def completion_patterns : List (String × String) :=
  [ ("fastqc", "FastQC completed"),
    ("trimmomatic", "Trimmomatic completed"),
    ("megahit", "MEGAHIT completed"),
    ("prodigal", "Prodigal completed"),
    ("hmmscan", "HMMscan completed"),
    ("binning", "MetaBAT2 completed"),
    ("checkm", "CheckM completed") ]

/-- `JobMonitor._parse_pipeline_log`: read the downloaded log file and
derive a per-step state vector.  The argument is the result of reading
the local file; the function's own `try/except` turns a read failure
into an empty dictionary. -/
def parse_pipeline_log (read_result : Except String String) :
    List (String × StepInfo) :=
  match read_result with
  | .error _ => []
  | .ok log_content =>
    step_patterns.map fun sp =>
      if containsSub sp.2.toList log_content.toList then
        if containsSub ((completion_patterns.lookup sp.1).getD "").toList
            log_content.toList then
          (sp.1, ⟨"complete", 100⟩)
        else
          (sp.1, ⟨"running", 50⟩)
      else
        (sp.1, ⟨"pending", 0⟩)

/-- `JobMonitor._get_current_step`: the first step whose status is
`"running"`, in dictionary order. -/
def get_current_step (steps : List (String × StepInfo)) : Option String :=
  match steps.find? (fun p => p.2.status == "running") with
  | some p => some p.1
  | none => none

/-- `JobMonitor._calculate_progress`: `0` for an empty step dictionary,
otherwise `int((completed_steps / total_steps) * 100)`.  Python's float
division and truncating `int(...)` are modelled as exact rational
division and `Int.floor` (the value is non-negative, so truncation is
floor); on every reachable step vector (0 or 7 entries) the IEEE-754
double computation of the source agrees with the exact rational one. -/
def calculate_progress (steps : List (String × StepInfo)) : Int :=
  if steps.isEmpty then 0
  else
    let total_steps := steps.length
    let completed_steps := (steps.filter (fun p => p.2.status == "complete")).length
    Int.floor ((completed_steps : ℚ) / (total_steps : ℚ) * 100)

/-- `JobMonitor.get_job_status` (`monitor.py` lines 19–84): poll the
gateways and produce a `JobStatus` record.  The Python `try/except`
around the gateway calls is modelled by pattern matching each call's
`Except` result: an `Except.error` jumps to the handler, which keeps
every field already assigned and sets `status = "error"` and the
message. -/
def get_job_status (gw : Gateways) (job_id instance_name : String) : JobStatus :=
  let status0 : JobStatus :=
    { job_id := job_id, status := "unknown", progress := 0, current_step := none,
      steps := [], elapsed_time := 0, estimated_cost := 0, vm_status := "unknown",
      error := none }
  match gw.get_instance_status instance_name with
  | .error e => { status0 with error := some e, status := "error" }
  | .ok vm_status =>
    let s1 := { status0 with vm_status := pyOrStr vm_status "not_found" }
    match gw.list_blobs ("jobs/" ++ job_id ++ "/status.txt") with
    | .error e => { s1 with error := some e, status := "error" }
    | .ok blobs =>
      if !blobs.isEmpty then
        { s1 with status := "complete", progress := 100 }
      else
        match gw.list_blobs ("jobs/" ++ job_id ++ "/pipeline.log") with
        | .error e => { s1 with error := some e, status := "error" }
        | .ok log_blobs =>
          let parsed : Except String JobStatus :=
            if !log_blobs.isEmpty then
              match gw.download_file ("jobs/" ++ job_id ++ "/pipeline.log")
                  ("/tmp/" ++ job_id ++ "_pipeline.log") with
              | .error e => .error e
              | .ok true =>
                let step_status :=
                  parse_pipeline_log (gw.read_local ("/tmp/" ++ job_id ++ "_pipeline.log"))
                .ok { s1 with steps := step_status,
                              current_step := get_current_step step_status,
                              progress := calculate_progress step_status }
              | .ok false => .ok s1
            else .ok s1
          match parsed with
          | .error e => { s1 with error := some e, status := "error" }
          | .ok s2 =>
            if vm_status = some "RUNNING" then
              { s2 with status := "running" }
            else if vm_status = some "TERMINATED" then
              if s2.progress = 100 then { s2 with status := "complete" }
              else { s2 with status := "failed" }
            else if vm_status = some "PROVISIONING" ∨ vm_status = some "STAGING" then
              { s2 with status := "starting" }
            else s2

/-- `JobMonitor.estimate_cost`: `(end - start).total_seconds() / 3600 *
COST_PER_HOUR.get(machine_type, 0.5)`.  Times are rational epoch
seconds (the source's optional `end_time = None` resolves to the
current wall-clock time before this computation and is passed here
explicitly); floats are exact rationals. -/
def estimate_cost (machine_type : String) (start_time end_time : ℚ) : ℚ :=
  (end_time - start_time) / 3600 * ((COST_PER_HOUR.lookup machine_type).getD 0.5)

/-- Python dictionary update `d[k] = v` on an insertion-ordered
association list: overwrite in place when the key exists, append
otherwise. -/
def dictInsert (l : List (String × String)) (k v : String) : List (String × String) :=
  match l with
  | [] => [(k, v)]
  | p :: rest => if p.1 == k then (k, v) :: rest else p :: dictInsert rest k v

/-- The categorization of one result object in `JobMonitor.get_results`
(`monitor.py` lines 214–234): the dictionary key under which the
object's signed URL is stored. -/
def result_key (blob_name : String) : String :=
  let filename := lastPathComponent blob_name.toList
  let lower := pyLower filename
  if containsSub "multiqc".toList lower then "multiqc_report"
  else if containsSub "contigs".toList lower && ".fa".toList.isSuffixOf filename then
    "contigs"
  else if containsSub "pfam".toList lower || containsSub "hmmscan".toList lower then
    "pfam_annotations"
  else if containsSub "bins".toList lower || containsSub "metabat".toList lower then
    "bins"
  else if containsSub "checkm".toList lower then "checkm_report"
  else String.mk filename

/-- `JobMonitor.get_results`: list the objects under
`results/<job_id>/`, generate a signed URL for each (objects whose URL
generation yields `None` are skipped), and store the URLs in a
dictionary keyed by category, in listing order. -/
def get_results (gw : Gateways) (job_id : String) : List (String × String) :=
  match gw.list_blobs ("results/" ++ job_id ++ "/") with
  | .error _ => []
  | .ok blobs =>
    blobs.foldl
      (fun results blob_name =>
        match gw.generate_signed_url blob_name with
        | none => results
        | some url => dictInsert results (result_key blob_name) url)
      []

/-- `VMLauncher.delete_vm` (`launcher.py` lines 140–168): request
instance deletion and wait; any exception from the request or the wait
is caught and turned into `false`. -/
def delete_vm (gw : Gateways) (instance_name : String) : Bool :=
  match gw.delete_instance instance_name with
  | .ok _ => true
  | .error _ => false

/-- `JobMonitor.cancel_job` (`monitor.py` lines 241–257): delete the
job's VM; its own `try/except` also maps any escaping exception to
`false` (none can escape from `delete_vm` as embedded). -/
def cancel_job (gw : Gateways) (_job_id instance_name : String) : Bool :=
  delete_vm gw instance_name

/-! ## `src/gcp/launcher.py` — the startup-script builder -/

/-- The enabled-steps join of `VMLauncher.generate_startup_script`
(`launcher.py` lines 239–240): keep the ids mapped to `True`, in the
order the caller's dictionary lists them, and comma-join. -/
def steps_str (enabled_steps : List (String × Bool)) : String :=
  String.intercalate "," ((enabled_steps.filter (·.2)).map (·.1))

/-- Modelled from the spec: the comma-joined enabled-step list the spec
describes, following "the fixed catalog order, not caller-supplied
order".  Used only to compare the spec's description with the source's
`steps_str`. -/
def steps_str_catalog_order (enabled_steps : List (String × Bool)) : String :=
  String.intercalate ","
    ((PIPELINE_STEPS.map (·.1)).filter (fun k => (enabled_steps.lookup k).getD false))

/-- `VMLauncher.generate_startup_script` (`launcher.py` lines 213–313):
the bootstrap script, a pure string built from the parameters.  The
bucket name (read from module configuration in the source) is passed
explicitly. -/
def generate_startup_script (bucket_name job_id input_file_1 input_file_2 : String)
    (threads min_contig_len : Int) (enabled_steps : List (String × Bool)) : String :=
  "#!/bin/bash\nset -e\n\n# Log all output\nexec > >(tee -a /var/log/startup-script.log)\nexec 2>&1\n\necho \"Starting metagenomics pipeline for job: " ++ job_id ++
  "\"\necho \"Timestamp: $(date)\"\n\n# Update and install dependencies\napt-get update\napt-get install -y docker.io git\n\n# Start Docker\nsystemctl start docker\nsystemctl enable docker\n\n# Clone the repository\ncd /home\ngit clone https://github.com/sathishthangasamy/metagenomics.git\ncd metagenomics\n\n# Build Docker image\ndocker build -t metagenomics:latest .\n\n# Install additional tools in container\ndocker run --name pipeline -d metagenomics:latest sleep infinity\ndocker exec pipeline apt-get update\ndocker exec pipeline apt-get install -y seqkit parallel vim google-cloud-sdk\n\n# Create data directory\ndocker exec pipeline mkdir -p /data\n\n# Download input files from GCS\necho \"Downloading input files...\"\ndocker exec pipeline gsutil cp " ++ input_file_1 ++
  " /data/CV_1.fq.gz\ndocker exec pipeline gsutil cp " ++ input_file_2 ++
  " /data/CV_2.fq.gz\n\n# Run the pipeline\necho \"Running pipeline with parameters:\"\necho \"  Threads: " ++ toString threads ++
  "\"\necho \"  Min contig length: " ++ toString min_contig_len ++
  "\"\necho \"  Enabled steps: " ++ steps_str enabled_steps ++
  "\"\n\n# Copy pipeline script\ndocker cp pipeline/run.sh pipeline:/pipeline/run.sh\ndocker exec pipeline chmod +x /pipeline/run.sh\n\n# Execute the pipeline\ndocker exec pipeline /pipeline/run.sh \\\n    --threads " ++ toString threads ++
  " \\\n    --min-contig-len " ++ toString min_contig_len ++
  " \\\n    --steps \"" ++ steps_str enabled_steps ++
  "\" \\\n    --job-id " ++ job_id ++
  " \\\n    --bucket " ++ bucket_name ++
  "\n\n# Upload results to GCS\necho \"Uploading results to GCS...\"\ndocker exec pipeline gsutil -m cp -r /data/results/* gs://" ++ bucket_name ++
  "/results/" ++ job_id ++
  "/\n\n# Cleanup\necho \"Pipeline completed successfully\"\necho \"Timestamp: $(date)\"\n\n# Create completion marker\necho \"DONE\" | docker exec -i pipeline gsutil cp - gs://" ++ bucket_name ++
  "/jobs/" ++ job_id ++
  "/status.txt\n\n# Shutdown the VM\nshutdown -h now\n"

/-! ## Shared lemmas and concrete test fixtures -/

/-- The rational-floor progress formula evaluates to integer division. -/
theorem floor_ratio_eq_natDiv (c t : Nat) :
    Int.floor ((c : ℚ) / (t : ℚ) * 100) = Int.ofNat (100 * c / t) := by
  have h : ((c : ℚ) / (t : ℚ) * 100) = (((100 * c : ℕ) : ℤ) : ℚ) / ((t : ℕ) : ℚ) := by
    push_cast
    ring
  rw [h, Rat.floor_intCast_div_natCast]
  rw [Int.ofNat_eq_natCast, Int.natCast_div]

/-- `calculate_progress` in executable form: integer division replaces
the rational floor. -/
theorem calculate_progress_eq (steps : List (String × StepInfo)) :
    calculate_progress steps =
      if steps.isEmpty then 0
      else Int.ofNat
        (100 * (steps.filter (fun p => p.2.status == "complete")).length / steps.length) := by
  by_cases h : steps.isEmpty
  · simp [calculate_progress, h]
  · simp only [calculate_progress, h, if_false]
    exact floor_ratio_eq_natDiv _ _

/-- A pipeline log in which exactly two of the seven steps (FastQC and
Trimmomatic) have both their started and completed markers. -/
def log_2of7 : String :=
  "Running FastQC ... FastQC completed ... Running Trimmomatic ... Trimmomatic completed"

/-- A pipeline log carrying the tracker's actual MEGAHIT markers
(`Running MEGAHIT` / `MEGAHIT completed`) and no others. -/
def log_mg : String := "Running MEGAHIT\nMEGAHIT completed"

/-- A gateway on which the completion marker is absent, the log is
present and downloadable, three steps are fully completed and a fourth
is running, and the instance reports `TERMINATED`. -/
def cgw3 : Gateways :=
  { get_instance_status := fun _ => .ok (some "TERMINATED"),
    list_blobs := fun p =>
      if p == "jobs/j1/status.txt" then .ok [] else .ok ["jobs/j1/pipeline.log"],
    download_file := fun _ _ => .ok true,
    read_local := fun _ => .ok "Running FastQC FastQC completed Running Trimmomatic Trimmomatic completed Running MEGAHIT MEGAHIT completed Running Prodigal",
    generate_signed_url := fun _ => none,
    delete_instance := fun _ => .ok () }

/-- A gateway whose compute side reports the instance as not found
(models deleting an already-deleted instance: the delete call raises). -/
def gwNotFound : Gateways :=
  { get_instance_status := fun _ => .ok none,
    list_blobs := fun _ => .ok [],
    download_file := fun _ _ => .ok false,
    read_local := fun _ => .error "no file",
    generate_signed_url := fun _ => none,
    delete_instance := fun _ =>
      .error "404 Not Found: the instance was not found (already deleted)" }

/-! ## Claim theorems -/

/-- C2, counterexample: on a log completing exactly 2 of the 7 steps
the source computes `int((2/7)*100) = 28`, while the claimed formula
`round(100 * completed / total)` gives `29`. -/
theorem calculate_progress_round_cex :
    ((parse_pipeline_log (.ok log_2of7)).filter
        (fun p => p.2.status == "complete")).length = 2 ∧
    (parse_pipeline_log (.ok log_2of7)).length = 7 ∧
    calculate_progress (parse_pipeline_log (.ok log_2of7)) = 28 ∧
    round (100 * (2 : ℚ) / 7) = 29 := by
  refine ⟨by decide, by decide, ?_, ?_⟩
  · rw [calculate_progress_eq]
    decide
  · rw [round_eq]
    norm_num

/-- C2, amended: for every log text, the step vector has the 7 catalog
entries and the aggregate progress is the TRUNCATED percentage
`⌊100 * completed_step_count / total_step_count⌋` (integer division),
not the rounded one; the progress is `0` for the empty step vector. -/
theorem calculate_progress_truncates (content : String) :
    (parse_pipeline_log (.ok content)).length = 7 ∧
    calculate_progress (parse_pipeline_log (.ok content)) =
      Int.ofNat (100 * ((parse_pipeline_log (.ok content)).filter
        (fun p => p.2.status == "complete")).length / 7) ∧
    calculate_progress [] = 0 := by
  have hlen : (parse_pipeline_log (.ok content)).length = 7 := by
    simp [parse_pipeline_log, step_patterns]
  have hne : (parse_pipeline_log (.ok content)).isEmpty = false := by
    cases hp : parse_pipeline_log (.ok content) with
    | nil =>
      rw [hp] at hlen
      exact absurd hlen (by decide)
    | cons a l => rfl
  refine ⟨hlen, ?_, by decide⟩
  rw [calculate_progress_eq, hlen, hne]
  simp

/-- C5, counterexample: the catalog display name for `megahit` is
`MEGAHIT Assembly`, and a log containing neither claimed marker
(`Running MEGAHIT Assembly`, `MEGAHIT Assembly completed`) is still
parsed as `megahit` complete — the tracker does not search the
display-name markers. -/
theorem parse_marker_cex :
    (parse_pipeline_log (.ok log_mg)).lookup "megahit" = some ⟨"complete", 100⟩ ∧
    (PIPELINE_STEPS.lookup "megahit").map (fun m => m.name) = some "MEGAHIT Assembly" ∧
    containsSub ("Running " ++ "MEGAHIT Assembly").toList log_mg.toList = false ∧
    containsSub ("MEGAHIT Assembly" ++ " completed").toList log_mg.toList = false := by
  decide

/-- C5, amended: for every catalog step the tracker searches a started
marker `Running <tok>` and a completion marker `<tok> completed`, where
`<tok>` is a hard-coded tool token that is a prefix of — but for
`megahit`, `hmmscan`, `binning` and `checkm` not equal to — that step's
catalog display name. -/
theorem parse_marker_table :
    ∀ p ∈ step_patterns,
      p.2.toList = "Running ".toList ++ p.2.toList.drop 8 ∧
      (p.2.toList.drop 8).isPrefixOf
        (((PIPELINE_STEPS.lookup p.1).getD ⟨"", false, ""⟩).name).toList ∧
      completion_patterns.lookup p.1 =
        some (String.mk (p.2.toList.drop 8 ++ " completed".toList)) := by
  decide

/-- C6, counterexample: a caller that supplies `megahit` before
`fastqc` obtains the joined list `megahit,fastqc`, not the catalog
order `fastqc,megahit` — the `--steps` list follows caller order. -/
theorem steps_str_catalog_cex :
    steps_str [("megahit", true), ("fastqc", true)] = "megahit,fastqc" ∧
    steps_str_catalog_order [("megahit", true), ("fastqc", true)] = "fastqc,megahit" ∧
    steps_str [("megahit", true), ("fastqc", true)] ≠
      steps_str_catalog_order [("megahit", true), ("fastqc", true)] := by
  decide

/-- C6, amended: the comma-joined enabled-step list substituted into
the startup script preserves the caller-supplied mapping order (and so
matches the catalog order exactly when the caller lists the steps in
catalog order, as the full-catalog evaluation shows). -/
theorem steps_str_caller_order :
    (∀ a b : String, steps_str [(a, true), (b, true)] = a ++ "," ++ b) ∧
    (∀ a b : String, steps_str [(a, false), (b, true)] = b) ∧
    steps_str (PIPELINE_STEPS.map (fun p => (p.1, p.2.enabled))) =
      "fastqc,trimmomatic,megahit,prodigal,hmmscan,binning,checkm" := by
  exact ⟨fun a b => rfl, fun a b => rfl, by decide⟩

/-- C4, counterexample: cancelling a job whose instance is already
deleted (the compute gateway's delete raises not-found) reports
failure (`false`), not success. -/
theorem cancel_job_already_deleted_cex :
    cancel_job gwNotFound "job1" "inst1" = false := rfl

/-- C4, amended: when the compute gateway's delete call raises (for
example not-found on an already-deleted instance), the exception is
caught and `cancel_job` reports `false`; it does not report success
and does not propagate the error. -/
theorem cancel_job_delete_error (gw : Gateways) (job_id instance_name e : String)
    (h : gw.delete_instance instance_name = .error e) :
    cancel_job gw job_id instance_name = false := by
  simp [cancel_job, delete_vm, h]

/-- Witness for `cancel_job_delete_error` at a concrete gateway. -/
theorem cancel_job_delete_error_witness :
    gwNotFound.delete_instance "inst2" =
      .error "404 Not Found: the instance was not found (already deleted)" ∧
    cancel_job gwNotFound "job2" "inst2" = false :=
  ⟨rfl, cancel_job_delete_error gwNotFound "job2" "inst2" _ rfl⟩

/-- Totality of the code-point lexicographic order. -/
theorem charListLe_total : ∀ as bs : List Char, charListLe as bs = true ∨ charListLe bs as = true := by
  intro as
  induction as with
  | nil => intro bs; left; rfl
  | cons a as ih =>
    intro bs
    cases bs with
    | nil => right; rfl
    | cons b bs' =>
      by_cases hab : a = b
      · subst hab
        rcases ih bs' with h | h
        · left; simpa [charListLe] using h
        · right; simpa [charListLe] using h
      · rcases lt_or_gt_of_ne hab with h | h
        · left; simp [charListLe, hab, h]
        · right; simp [charListLe, Ne.symm hab, h]

/-- Antisymmetry of the code-point lexicographic order. -/
theorem charListLe_antisymm : ∀ as bs : List Char,
    charListLe as bs = true → charListLe bs as = true → as = bs := by
  intro as
  induction as with
  | nil =>
    intro bs h1 h2
    cases bs with
    | nil => rfl
    | cons b bs' => exact absurd h2 (by simp [charListLe])
  | cons a as ih =>
    intro bs h1 h2
    cases bs with
    | nil => exact absurd h1 (by simp [charListLe])
    | cons b bs' =>
      by_cases hab : a = b
      · subst hab
        have := ih bs' (by simpa [charListLe] using h1) (by simpa [charListLe] using h2)
        rw [this]
      · have h1' : a < b := by simpa [charListLe, hab] using h1
        have h2' : b < a := by simpa [charListLe, Ne.symm hab] using h2
        exact absurd h2' (lt_asymm h1')

theorem pyStrLe_total (a b : String) : pyStrLe a b = true ∨ pyStrLe b a = true :=
  charListLe_total _ _

theorem pyStrLe_antisymm (a b : String) (h1 : pyStrLe a b = true) (h2 : pyStrLe b a = true) :
    a = b :=
  String.toList_inj.mp (charListLe_antisymm _ _ h1 h2)

/-- Sorting a two-element list ignores the input order. -/
theorem insertionSort_pair_comm (a b : String) :
    List.insertionSort (fun x y => pyStrLe x y = true) [a, b] =
    List.insertionSort (fun x y => pyStrLe x y = true) [b, a] := by
  by_cases h1 : pyStrLe a b = true <;> by_cases h2 : pyStrLe b a = true
  · have h := pyStrLe_antisymm a b h1 h2
    rw [h]
  · simp [List.insertionSort, List.orderedInsert, h1, h2]
  · simp [List.insertionSort, List.orderedInsert, h1, h2]
  · rcases pyStrLe_total a b with h | h
    · exact absurd h h1
    · exact absurd h h2

/-- C8: `validate_paired_files` is deterministic (it is a function) and
order-insensitive on two-element inputs, and on
`["x_R2.fq.gz", "x_R1.fq.gz"]` it accepts with the `R1` file as forward
and the `R2` file as reverse. -/
theorem validate_paired_files_comm :
    (∀ a b : String, validate_paired_files [a, b] = validate_paired_files [b, a]) ∧
    validate_paired_files ["x_R2.fq.gz", "x_R1.fq.gz"] =
      (true, some "x_R1.fq.gz", some "x_R2.fq.gz", "") := by
  constructor
  · intro a b
    have hs := insertionSort_pair_comm a b
    simp only [validate_paired_files, List.length_cons, List.length_nil, hs]
  · decide

/-- C1: whenever the listing of `jobs/<job_id>/status.txt` is
non-empty, `get_job_status` returns the full short-circuit record —
status `complete`, progress `100`, empty step vector and no current
step (the log path is never consulted) — for every reported instance
status and every behaviour of the log-related gateway calls. -/
theorem get_job_status_marker_dominates (gw : Gateways) (job_id instance_name : String)
    (vm : Option String) (blobs : List String)
    (h1 : gw.get_instance_status instance_name = .ok vm)
    (h2 : gw.list_blobs ("jobs/" ++ job_id ++ "/status.txt") = .ok blobs)
    (h3 : blobs ≠ []) :
    get_job_status gw job_id instance_name =
      { job_id := job_id, status := "complete", progress := 100, current_step := none,
        steps := [], elapsed_time := 0, estimated_cost := 0,
        vm_status := pyOrStr vm "not_found", error := none } := by
  have hb : blobs.isEmpty = false := by
    cases blobs with
    | nil => exact absurd rfl h3
    | cons x xs => rfl
  simp [get_job_status, h1, h2, hb]

/-- A gateway on which the completion marker object is present. -/
def cgwMarker : Gateways :=
  { get_instance_status := fun _ => .ok (some "RUNNING"),
    list_blobs := fun p =>
      if p == "jobs/j2/status.txt" then .ok ["jobs/j2/status.txt"]
      else .ok ["jobs/j2/pipeline.log"],
    download_file := fun _ _ => .ok true,
    read_local := fun _ => .ok "Running FastQC",
    generate_signed_url := fun _ => none,
    delete_instance := fun _ => .ok () }

/-- Witness for `get_job_status_marker_dominates` at a concrete
gateway. -/
theorem get_job_status_marker_dominates_witness :
    (["jobs/j2/status.txt"] : List String) ≠ [] ∧
    get_job_status cgwMarker "j2" "i2" =
      { job_id := "j2", status := "complete", progress := 100, current_step := none,
        steps := [], elapsed_time := 0, estimated_cost := 0,
        vm_status := "RUNNING", error := none } :=
  ⟨by decide,
    (get_job_status_marker_dominates cgwMarker "j2" "i2" (some "RUNNING")
      ["jobs/j2/status.txt"] rfl rfl (by decide)).trans (by decide)⟩

/-- C3: with the completion marker absent and all gateway calls
returning normally, the job status is resolved from the reported
instance status: `RUNNING` → `running`; `TERMINATED` → `complete` when
the aggregate progress is `100` and `failed` otherwise; `PROVISIONING`
or `STAGING` → `starting`; anything else (including not-found, i.e.
`none`) → `unknown`.  The second conjunct checks the claim's concrete
scenario: `TERMINATED` with aggregate progress `42` yields `failed`. -/
theorem get_job_status_resolution :
    (∀ (gw : Gateways) (job_id instance_name : String) (vm : Option String)
        (log_blobs : List String) (dl : Bool),
      gw.get_instance_status instance_name = .ok vm →
      gw.list_blobs ("jobs/" ++ job_id ++ "/status.txt") = .ok [] →
      gw.list_blobs ("jobs/" ++ job_id ++ "/pipeline.log") = .ok log_blobs →
      gw.download_file ("jobs/" ++ job_id ++ "/pipeline.log")
          ("/tmp/" ++ job_id ++ "_pipeline.log") = .ok dl →
      (get_job_status gw job_id instance_name).status =
        (if vm = some "RUNNING" then "running"
         else if vm = some "TERMINATED" then
           (if (get_job_status gw job_id instance_name).progress = 100 then "complete"
            else "failed")
         else if vm = some "PROVISIONING" ∨ vm = some "STAGING" then "starting"
         else "unknown")) ∧
    ((get_job_status cgw3 "j1" "i1").progress = 42 ∧
     (get_job_status cgw3 "j1" "i1").status = "failed") := by
  constructor
  · intro gw job_id instance_name vm log_blobs dl h1 h2 h3 h4
    simp only [get_job_status, h1, h2, h3, h4]
    by_cases hl : log_blobs.isEmpty <;> cases dl <;> simp [hl] <;> split_ifs <;> simp_all
  · constructor
    · simp only [get_job_status, cgw3, calculate_progress_eq]
      decide
    · simp only [get_job_status, cgw3, calculate_progress_eq]
      decide

/-- Witness for `get_job_status_resolution` at a concrete gateway. -/
theorem get_job_status_resolution_witness :
    (get_job_status cgw3 "j1" "i1").status =
      (if (some "TERMINATED" : Option String) = some "RUNNING" then "running"
       else if (some "TERMINATED" : Option String) = some "TERMINATED" then
         (if (get_job_status cgw3 "j1" "i1").progress = 100 then "complete" else "failed")
       else if (some "TERMINATED" : Option String) = some "PROVISIONING"
           ∨ (some "TERMINATED" : Option String) = some "STAGING" then "starting"
       else "unknown") :=
  get_job_status_resolution.1 cgw3 "j1" "i1" (some "TERMINATED")
    ["jobs/j1/pipeline.log"] true rfl rfl rfl rfl

/-- A gateway whose compute side raises while queried for status. -/
def gwRaise : Gateways :=
  { get_instance_status := fun _ => .error "ServiceUnavailable: 503 backend error",
    list_blobs := fun _ => .ok [],
    download_file := fun _ _ => .ok false,
    read_local := fun _ => .error "no file",
    generate_signed_url := fun _ => none,
    delete_instance := fun _ => .ok () }

/-- C7: `get_job_status` is a total function of the gateway record (so
no exception ever propagates to the caller), and at each of the four
gateway query points — instance status, marker listing, log listing,
log download — a raised exception is caught and surfaces as status
`error` with the exception message in the `error` field. -/
theorem get_job_status_catches (gw : Gateways) (job_id instance_name : String) :
    (∀ e, gw.get_instance_status instance_name = .error e →
      (get_job_status gw job_id instance_name).status = "error" ∧
      (get_job_status gw job_id instance_name).error = some e) ∧
    (∀ vm e, gw.get_instance_status instance_name = .ok vm →
      gw.list_blobs ("jobs/" ++ job_id ++ "/status.txt") = .error e →
      (get_job_status gw job_id instance_name).status = "error" ∧
      (get_job_status gw job_id instance_name).error = some e) ∧
    (∀ vm e, gw.get_instance_status instance_name = .ok vm →
      gw.list_blobs ("jobs/" ++ job_id ++ "/status.txt") = .ok [] →
      gw.list_blobs ("jobs/" ++ job_id ++ "/pipeline.log") = .error e →
      (get_job_status gw job_id instance_name).status = "error" ∧
      (get_job_status gw job_id instance_name).error = some e) ∧
    (∀ vm log_blobs e, gw.get_instance_status instance_name = .ok vm →
      gw.list_blobs ("jobs/" ++ job_id ++ "/status.txt") = .ok [] →
      gw.list_blobs ("jobs/" ++ job_id ++ "/pipeline.log") = .ok log_blobs →
      log_blobs ≠ [] →
      gw.download_file ("jobs/" ++ job_id ++ "/pipeline.log")
        ("/tmp/" ++ job_id ++ "_pipeline.log") = .error e →
      (get_job_status gw job_id instance_name).status = "error" ∧
      (get_job_status gw job_id instance_name).error = some e) := by
  refine ⟨?_, ?_, ?_, ?_⟩
  · intro e h1
    simp [get_job_status, h1]
  · intro vm e h1 h2
    simp [get_job_status, h1, h2]
  · intro vm e h1 h2 h3
    simp [get_job_status, h1, h2, h3]
  · intro vm log_blobs e h1 h2 h3 hne h4
    have hb : log_blobs.isEmpty = false := by
      cases log_blobs with
      | nil => exact absurd rfl hne
      | cons x xs => rfl
    simp [get_job_status, h1, h2, h3, h4, hb]

/-- Witness for `get_job_status_catches` at a concrete gateway. -/
theorem get_job_status_catches_witness :
    (get_job_status gwRaise "j3" "i3").status = "error" ∧
    (get_job_status gwRaise "j3" "i3").error = some "ServiceUnavailable: 503 backend error" :=
  (get_job_status_catches gwRaise "j3" "i3").1 "ServiceUnavailable: 503 backend error" rfl

/-- C9: cost estimation is zero at zero duration, additive (hence
linear) in the duration, shift-invariant (a pure function of `e - s`),
falls back to the default rate `0.5` for unknown machine types instead
of failing, and evaluates to `rate * hours` on the configured rates. -/
theorem estimate_cost_spec :
    (∀ (m : String) (s : ℚ), estimate_cost m s s = 0) ∧
    (∀ (m : String) (s d₁ d₂ : ℚ),
      estimate_cost m s (s + (d₁ + d₂)) =
        estimate_cost m s (s + d₁) + estimate_cost m s (s + d₂)) ∧
    (∀ (m : String) (t s e : ℚ), estimate_cost m (s + t) (e + t) = estimate_cost m s e) ∧
    (∀ (m : String) (s e : ℚ), COST_PER_HOUR.lookup m = none →
      estimate_cost m s e = (e - s) / 3600 * (1 / 2)) ∧
    (estimate_cost "n1-standard-16" 0 3600 = 0.38 ∧
     estimate_cost "n1-highmem-16" 0 7200 = 0.94) := by
  refine ⟨?_, ?_, ?_, ?_, ?_, ?_⟩
  · intro m s
    simp [estimate_cost]
  · intro m s d₁ d₂
    simp only [estimate_cost]
    ring
  · intro m t s e
    simp only [estimate_cost]
    ring_nf
  · intro m s e h
    simp only [estimate_cost, h, Option.getD_none]
    norm_num
  · norm_num [estimate_cost, COST_PER_HOUR, List.lookup]
  · have hne : ("n1-highmem-16" == "n1-standard-16") = false := by decide
    norm_num [estimate_cost, COST_PER_HOUR, List.lookup, hne]

/-- Witness for `estimate_cost_spec` at an unknown machine type. -/
theorem estimate_cost_spec_witness :
    COST_PER_HOUR.lookup "e2-standard-4" = none ∧
    estimate_cost "e2-standard-4" 0 7200 = (7200 - 0) / 3600 * (1 / 2) :=
  ⟨by decide, estimate_cost_spec.2.2.2.1 "e2-standard-4" 0 7200 (by decide)⟩

/-- Looking up the key just written by `dictInsert` gives the new value. -/
theorem dictInsert_lookup_self : ∀ (l : List (String × String)) (k v : String),
    (dictInsert l k v).lookup k = some v := by
  intro l
  induction l with
  | nil => intro k v; simp [dictInsert]
  | cons p rest ih =>
    intro k v
    by_cases h : p.1 == k
    · simp [dictInsert, h]
    · have hpk : p.1 ≠ k := by simpa using h
      have h' : (k == p.1) = false := beq_eq_false_iff_ne.mpr fun hk => hpk hk.symm
      simp [dictInsert, h, List.lookup, h', ih]

/-- `dictInsert` leaves lookups of other keys unchanged. -/
theorem dictInsert_lookup_other : ∀ (l : List (String × String)) (k v k' : String),
    k' ≠ k → (dictInsert l k v).lookup k' = l.lookup k' := by
  intro l
  induction l with
  | nil =>
    intro k v k' hne
    have h' : (k' == k) = false := beq_eq_false_iff_ne.mpr hne
    simp [dictInsert, List.lookup, h']
  | cons p rest ih =>
    intro k v k' hne
    by_cases h : p.1 == k
    · have hpk : p.1 = k := by rwa [beq_iff_eq] at h
      have h' : (k' == k) = false := beq_eq_false_iff_ne.mpr hne
      have h'' : (k' == p.1) = false := by rw [hpk]; exact h'
      simp [dictInsert, h, List.lookup, h', h'']
    · by_cases hk : k' == p.1
      · simp [dictInsert, h, List.lookup, hk]
      · simp only [dictInsert, h, if_false, List.lookup, hk]
        exact ih k v k' hne

/-- `find?` over an append takes the first hit of the left part. -/
theorem find?_append_helper (p : String → Bool) :
    ∀ l1 l2 : List String, (l1 ++ l2).find? p = ((l1.find? p).or (l2.find? p)) := by
  intro l1
  induction l1 with
  | nil => intro l2; simp
  | cons x xs ih =>
    intro l2
    by_cases hx : p x
    · simp [hx]
    · simp [hx, ih]

/-- The key set after `dictInsert` is the old key set plus the new key. -/
theorem dictInsert_keys_mem : ∀ (l : List (String × String)) (k v x : String),
    x ∈ (dictInsert l k v).map Prod.fst ↔ x ∈ l.map Prod.fst ∨ x = k := by
  intro l
  induction l with
  | nil => intro k v x; simp [dictInsert]
  | cons p rest ih =>
    intro k v x
    by_cases h : p.1 == k
    · have hpk : p.1 = k := by rwa [beq_iff_eq] at h
      simp [dictInsert, h, hpk]
      tauto
    · simp [dictInsert, h, ih]
      tauto

/-- `dictInsert` preserves key uniqueness. -/
theorem dictInsert_keys_nodup : ∀ (l : List (String × String)) (k v : String),
    (l.map Prod.fst).Nodup → ((dictInsert l k v).map Prod.fst).Nodup := by
  intro l
  induction l with
  | nil => intro k v _; simp [dictInsert]
  | cons p rest ih =>
    intro k v hnd
    rw [List.map_cons, List.nodup_cons] at hnd
    by_cases h : p.1 == k
    · have hpk : p.1 = k := by rwa [beq_iff_eq] at h
      simp only [dictInsert, h, if_true, List.map_cons, List.nodup_cons]
      exact ⟨by rw [← hpk]; exact hnd.1, hnd.2⟩
    · have h' : (p.1 == k) = false := by simpa using h
      have hpk : p.1 ≠ k := by simpa using h
      rw [show dictInsert (p :: rest) k v = p :: dictInsert rest k v from by
        simp [dictInsert, h']]
      rw [List.map_cons, List.nodup_cons]
      refine ⟨?_, ih k v hnd.2⟩
      rw [dictInsert_keys_mem]
      rintro (hmem | hkeq)
      · exact hnd.1 hmem
      · exact hpk hkeq

/-- The categorized-results fold resolves a category to the signed URL
of the last listed object of that category (the last whose URL
generation succeeds), falling back to the accumulator. -/
theorem get_results_fold_lookup (gw : Gateways) (cat : String) :
    ∀ (blobs : List String) (acc : List (String × String)),
      (blobs.foldl
        (fun results blob_name =>
          match gw.generate_signed_url blob_name with
          | none => results
          | some url => dictInsert results (result_key blob_name) url)
        acc).lookup cat =
      (match blobs.reverse.find?
          (fun x => result_key x == cat && (gw.generate_signed_url x).isSome) with
        | some b => gw.generate_signed_url b
        | none => acc.lookup cat) := by
  intro blobs
  induction blobs with
  | nil => intro acc; simp
  | cons b rest ih =>
    intro acc
    rw [List.foldl_cons, ih]
    rw [List.reverse_cons, find?_append_helper]
    cases hf : rest.reverse.find?
        (fun x => result_key x == cat && (gw.generate_signed_url x).isSome) with
    | some b' => simp [Option.or]
    | none =>
      simp only [Option.or]
      cases hu : gw.generate_signed_url b with
      | none => simp [hu]
      | some u =>
        by_cases hkey : result_key b == cat
        · have hk : result_key b = cat := by rwa [beq_iff_eq] at hkey
          simp only [List.find?_cons, hkey, hu, Option.isSome_some, Bool.and_self,
            Bool.and_true, List.find?_nil, hk, beq_self_eq_true]
          exact dictInsert_lookup_self acc cat u
        · have hk : cat ≠ result_key b := by
            have := (by simpa using hkey : result_key b ≠ cat)
            exact fun hc => this hc.symm
          simp only [List.find?_cons, hkey, hu, Bool.false_and, List.find?_nil]
          rw [dictInsert_lookup_other acc (result_key b) u cat hk]

/-- The categorized-results fold keeps dictionary keys unique. -/
theorem get_results_fold_nodup (gw : Gateways) :
    ∀ (blobs : List String) (acc : List (String × String)),
      (acc.map Prod.fst).Nodup →
      ((blobs.foldl
        (fun results blob_name =>
          match gw.generate_signed_url blob_name with
          | none => results
          | some url => dictInsert results (result_key blob_name) url)
        acc).map Prod.fst).Nodup := by
  intro blobs
  induction blobs with
  | nil => intro acc h; simpa using h
  | cons b rest ih =>
    intro acc h
    rw [List.foldl_cons]
    apply ih
    cases hu : gw.generate_signed_url b with
    | none => simpa using h
    | some u =>
      simp only [hu]
      exact dictInsert_keys_nodup acc (result_key b) u h

/-- C10: when several listed result objects classify into the same
category, the mapping returned by `get_results` holds exactly one URL
for that category (its keys are unique) and it is the URL of the
object that appears last in the storage listing (among those whose URL
generation succeeds) — every earlier object of the category is
dropped. -/
theorem get_results_last_wins (gw : Gateways) (job_id : String) (blobs : List String)
    (cat b : String)
    (h : gw.list_blobs ("results/" ++ job_id ++ "/") = .ok blobs)
    (hfind : blobs.reverse.find?
        (fun x => result_key x == cat && (gw.generate_signed_url x).isSome) = some b) :
    (get_results gw job_id).lookup cat = gw.generate_signed_url b ∧
    ((get_results gw job_id).map Prod.fst).Nodup := by
  constructor
  · simp only [get_results, h]
    rw [get_results_fold_lookup, hfind]
  · simp only [get_results, h]
    exact get_results_fold_nodup gw blobs [] (by simp)

/-- A gateway listing two result objects that both classify as
`multiqc_report`. -/
def cgwR : Gateways :=
  { get_instance_status := fun _ => .ok none,
    list_blobs := fun _ => .ok ["results/j9/a_multiqc.html", "results/j9/b_multiqc.html"],
    download_file := fun _ _ => .ok false,
    read_local := fun _ => .error "no file",
    generate_signed_url := fun bn => some ("https://signed/" ++ bn),
    delete_instance := fun _ => .ok () }

/-- Witness for `get_results_last_wins` at a concrete gateway. -/
theorem get_results_last_wins_witness :
    (["results/j9/a_multiqc.html", "results/j9/b_multiqc.html"] : List String).reverse.find?
        (fun x => result_key x == "multiqc_report" && (cgwR.generate_signed_url x).isSome)
      = some "results/j9/b_multiqc.html" ∧
    (get_results cgwR "j9").lookup "multiqc_report"
      = some "https://signed/results/j9/b_multiqc.html" ∧
    ((get_results cgwR "j9").map Prod.fst).Nodup := by
  have h := get_results_last_wins cgwR "j9"
    ["results/j9/a_multiqc.html", "results/j9/b_multiqc.html"]
    "multiqc_report" "results/j9/b_multiqc.html" rfl (by decide)
  exact ⟨by decide, h.1.trans (by decide), h.2⟩

/-- Witness for `parse_marker_table` at the `megahit` entry. -/
theorem parse_marker_table_witness :
    ("megahit", "Running MEGAHIT") ∈ step_patterns ∧
    (("megahit", "Running MEGAHIT") : String × String).2.toList =
      "Running ".toList ++ ("Running MEGAHIT" : String).toList.drop 8 ∧
    (("Running MEGAHIT" : String).toList.drop 8).isPrefixOf
      (((PIPELINE_STEPS.lookup "megahit").getD ⟨"", false, ""⟩).name).toList ∧
    completion_patterns.lookup "megahit" =
      some (String.mk (("Running MEGAHIT" : String).toList.drop 8 ++ " completed".toList)) :=
  ⟨by decide, parse_marker_table ("megahit", "Running MEGAHIT") (by decide)⟩
